import Mathlib

/-!
Verification of the DOM-tree reconstruction core of `browser_use/dom/service.py`.

The embedding models:
  * the producer's node-record shape (`Record`, a mapping of optional named
    fields; `none` at the record level models a falsy — empty or missing —
    record, `some r` a non-empty record whose recognized keys are the fields
    of `r`, any absent field being `none`);
  * the Record Decoder `DomService._parse_node` (`parse_node`), with Python
    `KeyError` on a missing required field rendered as `Except.error
    (BuildError.keyError key)`;
  * the Tree Assembler `DomService._build_dom_tree` (`build_dom_tree`): the
    mutable Python object graph `node_map` is embedded as an association
    list from id to `StoredNode`, whose `children` field holds the ids of
    the appended child objects (each id names a unique object, so storing
    ids is equivalent to storing references) and whose `parent` field
    mirrors the node's `parent` attribute (`None` at construction);
    `print` diagnostics are accumulated in `BuildState.diagnostics`;
  * the selector-map derivation `DomService._create_selector_map`
    (`create_selector_map`) over the reconstructed tree, with the Python
    dict embedded as an association list with dict update semantics
    (`dictInsert`).

Notes on fidelity:
  * dict keys of the producer's `map` arrive as strings (JSON object keys),
    so the source's `id = str(_id)` is the identity on them and id keys are
    modelled as `String`; child ids arrive as numbers and the source's
    `str(_child_id)` is modelled as `toString : Int → String`, which agrees
    with Python `str` on integers; `str(js_root_id)` is likewise modelled
    as a `String` root id.
  * the geometry sub-records (`viewportCoordinates`, `pageCoordinates`,
    `viewport`) are modelled as complete sub-records when present; no claim
    concerns partially populated geometry sub-records.
  * numeric coordinate values are modelled as `Int`; the decoder copies
    them verbatim, so the choice of numeric carrier is immaterial.
-/

namespace BrowserUse

/-- Modelled from the spec: 2-D coordinate pair
(`browser_use.dom.history_tree_processor.view.Coordinates`, not under
`src/`): "each point is a 2-D coordinate pair". -/
structure Coordinates where
  x : Int
  y : Int

/-- Modelled from the spec: element geometry record
(`browser_use.dom.views.CoordinateSet`, not under `src/`): "four corner
coordinates + center + width/height". -/
structure CoordinateSet where
  top_left : Coordinates
  top_right : Coordinates
  bottom_left : Coordinates
  bottom_right : Coordinates
  center : Coordinates
  width : Int
  height : Int

/-- Modelled from the spec: scroll/viewport state
(`browser_use.dom.views.ViewportInfo`, not under `src/`): "scroll offsets,
viewport width/height". -/
structure ViewportInfo where
  scroll_x : Int
  scroll_y : Int
  width : Int
  height : Int

/-- Raw geometry sub-record of a producer node-record (`topLeft`,
`topRight`, `bottomLeft`, `bottomRight`, `center`, `width`, `height`). -/
structure RawCoordinateSet where
  topLeft : Coordinates
  topRight : Coordinates
  bottomLeft : Coordinates
  bottomRight : Coordinates
  center : Coordinates
  width : Int
  height : Int

/-- Raw scroll/viewport sub-record of a producer node-record (`scrollX`,
`scrollY`, `width`, `height`). -/
structure RawViewport where
  scrollX : Int
  scrollY : Int
  width : Int
  height : Int

/-- One producer node-record: a mapping of named fields. A field whose key
is absent from the underlying dict is `none`. An entirely falsy record is
represented at use sites as `none : Option Record`. -/
structure Record where
  type : Option String := none
  text : Option String := none
  isVisible : Option Bool := none
  tagName : Option String := none
  xpath : Option String := none
  attributes : Option (List (String × String)) := none
  isInteractive : Option Bool := none
  isTopElement : Option Bool := none
  highlightIndex : Option Int := none
  shadowRoot : Option Bool := none
  viewportCoordinates : Option RawCoordinateSet := none
  pageCoordinates : Option RawCoordinateSet := none
  viewport : Option RawViewport := none
  children : Option (List Int) := none

/-- Modelled from the spec: the payload fields of a decoded ElementNode
(`browser_use.dom.views.DOMElementNode`, not under `src/`), children and
parent kept separately (see `StoredNode` / `DOMNode`). -/
structure ElemFields where
  tag_name : String
  xpath : String
  attributes : List (String × String)
  is_visible : Bool
  is_interactive : Bool
  is_top_element : Bool
  highlight_index : Option Int
  shadow_root : Bool
  viewport_coordinates : Option CoordinateSet
  page_coordinates : Option CoordinateSet
  viewport_info : Option ViewportInfo

/-- A decoded node value: either a TextNode payload or an ElementNode
payload (the element-vs-text variant classification). -/
inductive NodeVal where
  | text (text : String) (is_visible : Bool)
  | element (fields : ElemFields)

/-- Holds exactly on element values: `isinstance(·, DOMElementNode)`. -/
def isElementVal : NodeVal → Bool
  | .text _ _ => false
  | .element _ => true

/-- One node object held in the assembler's `node_map`: its decoded value,
the ids of the child objects appended to its `children` list so far, and
its `parent` attribute (initialised to `None` by `_parse_node`). -/
structure StoredNode where
  val : NodeVal
  children : List String
  parent : Option String

/-- Errors surfaced by the assembler: a Python `KeyError` (raised by a
`d[k]` lookup with `k` absent) or the explicit `ValueError` of
`_build_dom_tree`. -/
inductive BuildError where
  | keyError (key : String)
  | valueError (msg : String)

/-- One recorded diagnostic, mirroring the `print` calls of
`_build_dom_tree`: the "Node {id} is None!" report (together with the raw
record echoed by the following `print(node_data)`), or the
"Child node {child_id} not found!" report. -/
inductive Diag where
  | nodeIsNone (id : String) (raw : Option Record)
  | childNotFound (child_id : String)

/-- Scratch state of one reconstruction: the id → node mapping built so
far, plus the diagnostics printed so far. -/
structure BuildState where
  node_map : List (String × StoredNode)
  diagnostics : List Diag

/-- Association-list lookup, `d[k]`-style key resolution (`none` where
Python raises `KeyError`, handled at each call site). -/
def assocLookup {κ β : Type} [DecidableEq κ] : List (κ × β) → κ → Option β
  | [], _ => none
  | p :: ps, k => if p.1 = k then some p.2 else assocLookup ps k

/-- Python dict assignment `d[k] = v`: replace in place when the key is
present, append otherwise. -/
def dictInsert {κ β : Type} [DecidableEq κ] : List (κ × β) → κ → β → List (κ × β)
  | [], k, v => [(k, v)]
  | p :: ps, k, v => if p.1 = k then (k, v) :: ps else p :: dictInsert ps k v

/-- Embeds `node_map[id].children.append(child_node)` (line 101): extend the
child list of the entry keyed `id`. The key `id` is always present here,
having been inserted at line 90 of the source. -/
def appendChildId : List (String × StoredNode) → String → String → List (String × StoredNode)
  | [], _, _ => []
  | p :: ps, id, cid =>
      if p.1 = id then (p.1, { p.2 with children := p.2.children ++ [cid] }) :: ps
      else p :: appendChildId ps id cid

/-- Missing-required-field lookup `node_data[key]`: `KeyError` when the
field is absent. -/
def req {α : Type} (o : Option α) (key : String) : Except BuildError α :=
  match o with
  | some v => .ok v
  | none => .error (.keyError key)

/-- Field-by-field decoding of a geometry sub-record,
lines 127-150 of the source: `CoordinateSet(top_left=Coordinates(**d['topLeft']), ...)`. -/
def decodeCoordinateSet (d : RawCoordinateSet) : CoordinateSet :=
  { top_left := d.topLeft
    top_right := d.topRight
    bottom_left := d.bottomLeft
    bottom_right := d.bottomRight
    center := d.center
    width := d.width
    height := d.height }

/-- Field-by-field decoding of the scroll/viewport sub-record,
lines 151-157 of the source. -/
def decodeViewportInfo (d : RawViewport) : ViewportInfo :=
  { scroll_x := d.scrollX
    scroll_y := d.scrollY
    width := d.width
    height := d.height }

/-- Embeds `DomService._parse_node` (lines 110-177): decode one record into an
optional node value plus the raw child-id list. `none` input models a
falsy (`if not node_data`) record. -/
def parse_node (node_data : Option Record) : Except BuildError (Option NodeVal × List Int) :=
  match node_data with
  | none => .ok (none, [])
  | some r =>
    if r.type = some "TEXT_NODE" then
      match req r.text "text" with
      | .error e => .error e
      | .ok text =>
        match req r.isVisible "isVisible" with
        | .error e => .error e
        | .ok vis => .ok (some (.text text vis), [])
    else
      let viewport_coordinates := r.viewportCoordinates.map decodeCoordinateSet
      let page_coordinates := r.pageCoordinates.map decodeCoordinateSet
      let viewport_info := r.viewport.map decodeViewportInfo
      match req r.tagName "tagName" with
      | .error e => .error e
      | .ok tag_name =>
        match req r.xpath "xpath" with
        | .error e => .error e
        | .ok xpath =>
          .ok (some (.element
            { tag_name := tag_name
              xpath := xpath
              attributes := r.attributes.getD []
              is_visible := r.isVisible.getD false
              is_interactive := r.isInteractive.getD false
              is_top_element := r.isTopElement.getD false
              highlight_index := r.highlightIndex
              shadow_root := r.shadowRoot.getD false
              viewport_coordinates := viewport_coordinates
              page_coordinates := page_coordinates
              viewport_info := viewport_info }), r.children.getD [])

/-- The child-attachment loop of `_build_dom_tree` (lines 93-101). Line 95
reads `node_map[child_id]` before the `child_id not in node_map` guard of
line 97, so an absent child id raises `KeyError`; the guarded
diagnostic-and-skip branch is kept, as in the source, though unreachable. -/
def attachChildren (id : String) : List Int → BuildState → Except BuildError BuildState
  | [], st => .ok st
  | cid :: rest, st =>
      let child_id := toString cid
      match assocLookup st.node_map child_id with
      | none => .error (.keyError child_id)
      | some _child_node =>
          if (assocLookup st.node_map child_id).isNone then
            attachChildren id rest
              { st with diagnostics := st.diagnostics ++ [.childNotFound child_id] }
          else
            attachChildren id rest
              { st with node_map := appendChildId st.node_map id child_id }

/-- One iteration of the entry loop of `_build_dom_tree` (lines 83-101):
decode the record; on `None`, print the diagnostic and continue; otherwise
store the node (children empty, parent `None`, line 90) and attach its
children. -/
def processEntry (st : BuildState) (id : String) (node_data : Option Record) :
    Except BuildError BuildState :=
  match parse_node node_data with
  | .error e => .error e
  | .ok (none, _children_ids) =>
      .ok { st with diagnostics := st.diagnostics ++ [.nodeIsNone id node_data] }
  | .ok (some node, children_ids) =>
      attachChildren id children_ids
        { st with node_map := dictInsert st.node_map id ⟨node, [], none⟩ }

/-- The full entry loop of `_build_dom_tree` over `js_node_map.items()`. -/
def build_entries : List (String × Option Record) → BuildState → Except BuildError BuildState
  | [], st => .ok st
  | (id, node_data) :: rest, st =>
      match processEntry st id node_data with
      | .error e => .error e
      | .ok st' => build_entries rest st'

/-- Embeds `DomService._build_dom_tree` after the producer round-trip
(lines 81-108): build the node map, resolve the root id (line 103, a
`KeyError` when absent), require an element root (lines 105-106; the
`is None` disjunct is unreachable since `None` nodes are never stored).
On success the whole final state is returned; the root node object is
`assocLookup st.node_map js_root_id`. -/
def build_dom_tree (js_node_map : List (String × Option Record)) (js_root_id : String) :
    Except BuildError BuildState :=
  match build_entries js_node_map ⟨[], []⟩ with
  | .error e => .error e
  | .ok st =>
      match assocLookup st.node_map js_root_id with
      | none => .error (.keyError js_root_id)
      | some html_to_dict =>
          if isElementVal html_to_dict.val then .ok st
          else .error (.valueError "Failed to parse HTML to dictionary")

/-- A reconstructed DOM node as a tree: the unfolding of the object graph
reachable from a node (`DOMBaseNode` with the two variants of the views
module; children of an element in document order). -/
inductive DOMNode where
  | text (text : String) (is_visible : Bool)
  | element (fields : ElemFields) (children : List DOMNode)

/-- The highlight index of a node: set only on element nodes. -/
def handleOf : DOMNode → Option Int
  | .text _ _ => none
  | .element f _ => f.highlight_index

mutual

/-- The inner `process_node` of `DomService._create_selector_map`
(lines 46-52): on an element node, record it under its highlight index
when set, then recurse into its children; text nodes contribute nothing. -/
def process_node (selector_map : List (Int × DOMNode)) : DOMNode → List (Int × DOMNode)
  | .text _ _ => selector_map
  | .element f cs =>
      match f.highlight_index with
      | some h => process_children (dictInsert selector_map h (.element f cs)) cs
      | none => process_children selector_map cs

/-- The child loop of `process_node` (lines 51-52). -/
def process_children (selector_map : List (Int × DOMNode)) : List DOMNode → List (Int × DOMNode)
  | [] => selector_map
  | c :: cs => process_children (process_node selector_map c) cs

end

/-- Embeds `DomService._create_selector_map` (lines 43-56): derive the
HandleIndex from the reconstructed tree. -/
def create_selector_map (element_tree : DOMNode) : List (Int × DOMNode) :=
  process_node [] element_tree

mutual

/-- The pre-order sequence of (highlight index, node) pairs that
`process_node` inserts while traversing a node. -/
def nodePairs : DOMNode → List (Int × DOMNode)
  | .text _ _ => []
  | .element f cs =>
      (match f.highlight_index with
       | some h => [(h, .element f cs)]
       | none => []) ++ listPairs cs

/-- Extends `nodePairs` over a child list. -/
def listPairs : List DOMNode → List (Int × DOMNode)
  | [] => []
  | c :: cs => nodePairs c ++ listPairs cs

end

mutual

/-- All nodes of a tree, in pre-order. -/
def nodesOf : DOMNode → List DOMNode
  | .text t v => [.text t v]
  | .element f cs => .element f cs :: nodesOfList cs

/-- Extends `nodesOf` over a child list. -/
def nodesOfList : List DOMNode → List DOMNode
  | [] => []
  | c :: cs => nodesOf c ++ nodesOfList cs

end

/-- The HandleIndex entry contributed by a single node, if any. -/
def pairOf (n : DOMNode) : Option (Int × DOMNode) :=
  (handleOf n).map (fun h => (h, n))

/-- The highlight indices present in a tree, in pre-order. -/
def treeHandles (t : DOMNode) : List Int :=
  (nodePairs t).map Prod.fst

/-- Spec well-formedness of a reconstructed tree: the highlight index "is
unique within one tree". -/
@[reducible] def uniqueHandles (t : DOMNode) : Prop :=
  (treeHandles t).Nodup

/-- Unfold the stored object graph into a tree, following child ids, with
a recursion-depth budget. -/
def storeToTree (node_map : List (String × StoredNode)) : Nat → String → Option DOMNode
  | 0, _ => none
  | fuel + 1, id =>
      match assocLookup node_map id with
      | none => none
      | some sn =>
          match sn.val with
          | .text t v => some (.text t v)
          | .element f =>
              (sn.children.mapM (fun cid => storeToTree node_map fuel cid)).map
                (fun cs => .element f cs)

mutual

/-- Simultaneous structural induction for `DOMNode` and child lists. -/
def nodeInd {P : DOMNode → Prop} {Q : List DOMNode → Prop}
    (htext : ∀ t v, P (.text t v))
    (helem : ∀ f cs, Q cs → P (.element f cs))
    (hnil : Q [])
    (hcons : ∀ c cs, P c → Q cs → Q (c :: cs)) : ∀ n, P n
  | .text t v => htext t v
  | .element f cs => helem f cs (listInd htext helem hnil hcons cs)

/-- Simultaneous structural induction, list side. -/
def listInd {P : DOMNode → Prop} {Q : List DOMNode → Prop}
    (htext : ∀ t v, P (.text t v))
    (helem : ∀ f cs, Q cs → P (.element f cs))
    (hnil : Q [])
    (hcons : ∀ c cs, P c → Q cs → Q (c :: cs)) : ∀ l, Q l
  | [] => hnil
  | c :: cs => hcons c cs (nodeInd htext helem hnil hcons c) (listInd htext helem hnil hcons cs)

end

/-- Holds when a record decodes to an actual node
(`_parse_node` returns a non-`None` node). -/
def decodesToSome (node_data : Option Record) : Bool :=
  match parse_node node_data with
  | .ok (some _, _) => true
  | _ => false

/-- Holds when a record decodes to a non-element node. -/
def decodesToNonElement (node_data : Option Record) : Bool :=
  match parse_node node_data with
  | .ok (some v, _) => !(isElementVal v)
  | _ => false

/-- The ids of the producer map whose records decode to actual nodes: the
key set of the decoded id-to-node mapping. -/
def decodedIds (entries : List (String × Option Record)) : List String :=
  (entries.filter (fun e => decodesToSome e.2)).map Prod.fst

/-- The producer map has pairwise-distinct ids (it is a dict). -/
@[reducible] def nodupKeys (entries : List (String × Option Record)) : Prop :=
  (entries.map Prod.fst).Nodup

/-- Holds exactly on failed reconstructions. -/
def exceptFailed {α : Type} : Except BuildError α → Bool
  | .error _ => true
  | .ok _ => false

/-- The spec's §8 example: record of the body element (children 1 and 2). -/
def bodyRecord : Record :=
  { tagName := some "body", xpath := some "/body", children := some [1, 2] }

/-- The spec's §8 example: record of the visible text node "hi". -/
def textRecord : Record :=
  { type := some "TEXT_NODE", text := some "hi", isVisible := some true }

/-- The spec's §8 example: record of the interactive div with highlight
index 0. -/
def divRecord : Record :=
  { tagName := some "div", xpath := some "/body/div", isInteractive := some true,
    highlightIndex := some 0, children := some [] }

/-- The spec's §8 example map with entries in its declared order
(root record first). -/
def c4TopDown : List (String × Option Record) :=
  [("0", some bodyRecord), ("1", some textRecord), ("2", some divRecord)]

/-- The spec's §8 example map with entries in bottom-up order (children
before their parent), as the assembler's producer contract requires. -/
def c4BottomUp : List (String × Option Record) :=
  [("1", some textRecord), ("2", some divRecord), ("0", some bodyRecord)]

/-- Decoded payload of the example body element. -/
def bodyFields : ElemFields :=
  { tag_name := "body", xpath := "/body", attributes := [], is_visible := false,
    is_interactive := false, is_top_element := false, highlight_index := none,
    shadow_root := false, viewport_coordinates := none, page_coordinates := none,
    viewport_info := none }

/-- Decoded payload of the example div element. -/
def divFields : ElemFields :=
  { tag_name := "div", xpath := "/body/div", attributes := [], is_visible := false,
    is_interactive := true, is_top_element := false, highlight_index := some 0,
    shadow_root := false, viewport_coordinates := none, page_coordinates := none,
    viewport_info := none }

/-- The state `build_dom_tree` reaches on the bottom-up example input. -/
def c4BuiltState : BuildState :=
  { node_map :=
      [("1", ⟨.text "hi" true, [], none⟩),
       ("2", ⟨.element divFields, [], none⟩),
       ("0", ⟨.element bodyFields, ["1", "2"], none⟩)],
    diagnostics := [] }

/-- The tree the bottom-up example unfolds to. -/
def c4Tree : DOMNode :=
  .element bodyFields [.text "hi" true, .element divFields []]

/-- A single-record map whose one element record references the absent
child id 1. -/
def c1Entries : List (String × Option Record) :=
  [("0", some { tagName := some "body", xpath := some "/body", children := some [1] })]

/-- A well-formed single-record map, used with a root id that is absent
from it. -/
def c5Entries : List (String × Option Record) :=
  [("0", some divRecord)]

/-- A minimal element record: tag name and xpath only. -/
def c8Rec : Record :=
  { tagName := some "span", xpath := some "/span" }

/-- A concrete geometry sub-record. -/
def c9Vc : RawCoordinateSet :=
  { topLeft := ⟨1, 2⟩, topRight := ⟨3, 2⟩, bottomLeft := ⟨1, 5⟩, bottomRight := ⟨3, 5⟩,
    center := ⟨2, 3⟩, width := 2, height := 3 }

/-- An element record carrying the concrete geometry sub-record. -/
def c9Rec : Record :=
  { tagName := some "div", xpath := some "/div", viewportCoordinates := some c9Vc }

/-! ## Helper lemmas -/

theorem assocLookup_dictInsert {κ β : Type} [DecidableEq κ] (m : List (κ × β)) (k k' : κ) (v : β) :
    assocLookup (dictInsert m k v) k' = if k' = k then some v else assocLookup m k' := by
  induction m with
  | nil =>
      by_cases h : k' = k
      · subst h; simp [dictInsert, assocLookup]
      · have h2 : ¬ k = k' := fun he => h he.symm
        simp [dictInsert, assocLookup, h, h2]
  | cons p ps ih =>
      by_cases hpk : p.1 = k
      · by_cases h : k' = k
        · subst h; simp [dictInsert, assocLookup, hpk]
        · have h2 : ¬ k = k' := fun he => h he.symm
          have h3 : ¬ p.1 = k' := fun he => h (he ▸ hpk)
          simp [dictInsert, assocLookup, hpk, h, h2, h3]
      · by_cases hp' : p.1 = k'
        · have h : ¬ k' = k := fun he => hpk (hp'.trans he)
          simp [dictInsert, assocLookup, hpk, hp', h]
        · simp [dictInsert, assocLookup, hpk, hp', ih]

theorem dictInsert_not_mem {κ β : Type} [DecidableEq κ] (m : List (κ × β)) (k : κ) (v : β)
    (h : k ∉ m.map Prod.fst) : dictInsert m k v = m ++ [(k, v)] := by
  induction m with
  | nil => simp [dictInsert]
  | cons p ps ih =>
      simp only [List.map_cons, List.mem_cons, not_or] at h
      have hpk : ¬ p.1 = k := fun he => h.1 he.symm
      simp [dictInsert, hpk, ih h.2]

theorem foldl_dictInsert_nodup {κ β : Type} [DecidableEq κ] :
    ∀ (l m : List (κ × β)), (l.map Prod.fst).Nodup →
      (∀ k, k ∈ l.map Prod.fst → k ∉ m.map Prod.fst) →
      l.foldl (fun acc p => dictInsert acc p.1 p.2) m = m ++ l := by
  intro l
  induction l with
  | nil => intro m _ _; simp
  | cons p ps ih =>
      intro m hnd hdisj
      simp only [List.map_cons, List.nodup_cons] at hnd
      have hstep : dictInsert m p.1 p.2 = m ++ [(p.1, p.2)] :=
        dictInsert_not_mem m p.1 p.2 (hdisj p.1 (by simp))
      have hdisj' : ∀ k, k ∈ ps.map Prod.fst → k ∉ (m ++ [(p.1, p.2)]).map Prod.fst := by
        intro k hk
        simp only [List.map_append, List.mem_append, List.map_cons, List.map_nil,
          List.mem_singleton, not_or]
        exact ⟨hdisj k (by simp [hk]), fun he => hnd.1 (he ▸ hk)⟩
      simp only [List.foldl_cons, hstep, ih (m ++ [(p.1, p.2)]) hnd.2 hdisj']
      simp

theorem process_children_eq_fold :
    ∀ l m, process_children m l =
      (listPairs l).foldl (fun acc p => dictInsert acc p.1 p.2) m := by
  exact listInd
    (P := fun n => ∀ m, process_node m n =
      (nodePairs n).foldl (fun acc p => dictInsert acc p.1 p.2) m)
    (Q := fun l => ∀ m, process_children m l =
      (listPairs l).foldl (fun acc p => dictInsert acc p.1 p.2) m)
    (fun t v => by intro m; simp [process_node, nodePairs])
    (fun f cs ih => by
      intro m
      cases h : f.highlight_index with
      | none => simp [process_node, nodePairs, h, ih]
      | some hi => simp [process_node, nodePairs, h, ih])
    (by intro m; simp [process_children, listPairs])
    (fun c cs ihc ihcs => by
      intro m
      simp [process_children, listPairs, ihc, ihcs, List.foldl_append])

theorem process_node_eq_fold :
    ∀ n m, process_node m n =
      (nodePairs n).foldl (fun acc p => dictInsert acc p.1 p.2) m := by
  exact nodeInd
    (P := fun n => ∀ m, process_node m n =
      (nodePairs n).foldl (fun acc p => dictInsert acc p.1 p.2) m)
    (Q := fun l => ∀ m, process_children m l =
      (listPairs l).foldl (fun acc p => dictInsert acc p.1 p.2) m)
    (fun t v => by intro m; simp [process_node, nodePairs])
    (fun f cs ih => by
      intro m
      cases h : f.highlight_index with
      | none => simp [process_node, nodePairs, h, ih]
      | some hi => simp [process_node, nodePairs, h, ih])
    (by intro m; simp [process_children, listPairs])
    (fun c cs ihc ihcs => by
      intro m
      simp [process_children, listPairs, ihc, ihcs, List.foldl_append])

theorem nodePairs_eq_filterMap :
    ∀ n, nodePairs n = (nodesOf n).filterMap pairOf := by
  exact nodeInd
    (P := fun n => nodePairs n = (nodesOf n).filterMap pairOf)
    (Q := fun l => listPairs l = (nodesOfList l).filterMap pairOf)
    (fun t v => by simp [nodePairs, nodesOf, pairOf, handleOf])
    (fun f cs ih => by
      cases h : f.highlight_index with
      | none => simp [nodePairs, nodesOf, pairOf, handleOf, h, ih, List.filterMap_cons]
      | some hi => simp [nodePairs, nodesOf, pairOf, handleOf, h, ih, List.filterMap_cons])
    (by simp [listPairs, nodesOfList])
    (fun c cs ihc ihcs => by
      simp [listPairs, nodesOfList, ihc, ihcs, List.filterMap_append])

theorem length_filterMap_pairOf :
    ∀ l : List DOMNode,
      (l.filterMap pairOf).length = (l.filter (fun n => (handleOf n).isSome)).length := by
  intro l
  induction l with
  | nil => simp
  | cons n ns ih =>
      cases h : handleOf n <;>
        simp [pairOf, h, ih, List.filterMap_cons, List.filter_cons]

theorem appendChildId_origin :
    ∀ (m : List (String × StoredNode)) (pid cid id : String) (sn' : StoredNode),
      assocLookup (appendChildId m pid cid) id = some sn' →
      ∃ sn, assocLookup m id = some sn ∧ sn.val = sn'.val ∧ sn.parent = sn'.parent := by
  intro m
  induction m with
  | nil => intro pid cid id sn' h; simp [appendChildId, assocLookup] at h
  | cons p ps ih =>
      intro pid cid id sn' h
      by_cases hp : p.1 = pid
      · rw [appendChildId, if_pos hp] at h
        by_cases hid : p.1 = id
        · rw [assocLookup, if_pos hid] at h
          injection h with h
          exact ⟨p.2, by rw [assocLookup, if_pos hid], by rw [← h], by rw [← h]⟩
        · rw [assocLookup, if_neg hid] at h
          exact ⟨sn', by rw [assocLookup, if_neg hid, h], rfl, rfl⟩
      · rw [appendChildId, if_neg hp] at h
        by_cases hid : p.1 = id
        · rw [assocLookup, if_pos hid] at h
          injection h with h
          exact ⟨p.2, by rw [assocLookup, if_pos hid], by rw [h], by rw [h]⟩
        · rw [assocLookup, if_neg hid] at h
          obtain ⟨sn, hl, hv, hpar⟩ := ih pid cid id sn' h
          exact ⟨sn, by rw [assocLookup, if_neg hid]; exact hl, hv, hpar⟩

theorem attachChildren_origin (pid : String) :
    ∀ (cids : List Int) (st st' : BuildState),
      attachChildren pid cids st = .ok st' →
      ∀ id sn', assocLookup st'.node_map id = some sn' →
        ∃ sn, assocLookup st.node_map id = some sn ∧ sn.val = sn'.val ∧ sn.parent = sn'.parent := by
  intro cids
  induction cids with
  | nil =>
      intro st st' h id sn' hl
      rw [attachChildren] at h
      injection h with h
      subst h
      exact ⟨sn', hl, rfl, rfl⟩
  | cons cid rest ih =>
      intro st st' h id sn' hl
      rw [attachChildren] at h
      cases hc : assocLookup st.node_map (toString cid) with
      | none => rw [hc] at h; exact absurd h (by simp)
      | some cnode =>
          rw [hc] at h
          simp only [Option.isNone_some, Bool.false_eq_true, if_false] at h
          obtain ⟨sn1, hl1, hv1, hp1⟩ := ih _ st' h id sn' hl
          simp only at hl1
          obtain ⟨sn, hl0, hv0, hp0⟩ := appendChildId_origin st.node_map pid (toString cid) id sn1 hl1
          exact ⟨sn, hl0, hv0.trans hv1, hp0.trans hp1⟩

theorem processEntry_origin (st st1 : BuildState) (eid : String) (erec : Option Record)
    (h : processEntry st eid erec = .ok st1) :
    ∀ id sn, assocLookup st1.node_map id = some sn →
      (∃ sn0, assocLookup st.node_map id = some sn0 ∧ sn0.val = sn.val ∧ sn0.parent = sn.parent) ∨
      (id = eid ∧ ∃ cids, parse_node erec = .ok (some sn.val, cids) ∧ sn.parent = none) := by
  intro id sn hl
  rw [processEntry] at h
  cases hp : parse_node erec with
  | error e => rw [hp] at h; exact absurd h (by simp)
  | ok pr =>
      rw [hp] at h
      obtain ⟨node?, cids⟩ := pr
      cases node? with
      | none =>
          simp only at h
          injection h with h
          subst h
          exact Or.inl ⟨sn, by simpa using hl, rfl, rfl⟩
      | some node =>
          simp only at h
          obtain ⟨sn0, hl0, hv0, hp0⟩ := attachChildren_origin eid cids _ st1 h id sn hl
          simp only at hl0
          rw [assocLookup_dictInsert] at hl0
          by_cases hid : id = eid
          · rw [if_pos hid] at hl0
            injection hl0 with hl0
            refine Or.inr ⟨hid, cids, ?_, ?_⟩
            · have hnode : node = sn.val := (congrArg StoredNode.val hl0).trans hv0
              rw [hnode]
            · rw [← hp0]
              exact (congrArg StoredNode.parent hl0).symm
          · rw [if_neg hid] at hl0
            exact Or.inl ⟨sn0, hl0, hv0, hp0⟩

theorem build_entries_origin :
    ∀ (entries : List (String × Option Record)) (st st' : BuildState),
      build_entries entries st = .ok st' →
      ∀ id sn, assocLookup st'.node_map id = some sn →
        (∃ sn0, assocLookup st.node_map id = some sn0 ∧ sn0.val = sn.val ∧
          sn0.parent = sn.parent) ∨
        (∃ rec cids, (id, rec) ∈ entries ∧ parse_node rec = .ok (some sn.val, cids) ∧
          sn.parent = none) := by
  intro entries
  induction entries with
  | nil =>
      intro st st' h id sn hl
      rw [build_entries] at h
      injection h with h
      subst h
      exact Or.inl ⟨sn, hl, rfl, rfl⟩
  | cons e rest ih =>
      intro st st' h id sn hl
      obtain ⟨eid, erec⟩ := e
      rw [build_entries] at h
      cases hp : processEntry st eid erec with
      | error e2 => rw [hp] at h; exact absurd h (by simp)
      | ok st1 =>
          rw [hp] at h
          rcases ih st1 st' h id sn hl with ⟨sn1, hl1, hv1, hpar1⟩ | ⟨rec, cids, hmem, hpr, hpn⟩
          · rcases processEntry_origin st st1 eid erec hp id sn1 hl1 with
              ⟨sn0, hl0, hv0, hpar0⟩ | ⟨hid, cids, hpr, hpn⟩
            · exact Or.inl ⟨sn0, hl0, hv0.trans hv1, hpar0.trans hpar1⟩
            · subst hid
              refine Or.inr ⟨erec, cids, List.mem_cons_self _ _, ?_, ?_⟩
              · rw [hpr, hv1]
              · rw [← hpar1, hpn]
          · exact Or.inr ⟨rec, cids, List.mem_cons_of_mem _ hmem, hpr, hpn⟩

theorem assoc_mem_unique {κ α : Type} :
    ∀ (l : List (κ × α)) (k : κ) (a b : α),
      (l.map Prod.fst).Nodup → (k, a) ∈ l → (k, b) ∈ l → a = b := by
  intro l
  induction l with
  | nil => intro k a b _ ha; simp at ha
  | cons p ps ih =>
      intro k a b hnd ha hb
      simp only [List.map_cons, List.nodup_cons] at hnd
      rcases List.mem_cons.mp ha with ha | ha <;> rcases List.mem_cons.mp hb with hb | hb
      · rw [← hb] at ha
        exact congrArg Prod.snd ha
      · exfalso
        apply hnd.1
        have : p.1 = k := by rw [← ha]
        rw [this]
        exact List.mem_map.mpr ⟨(k, b), hb, rfl⟩
      · exfalso
        apply hnd.1
        have : p.1 = k := by rw [← hb]
        rw [this]
        exact List.mem_map.mpr ⟨(k, a), ha, rfl⟩
      · exact ih k a b hnd.2 ha hb

/-! ## Claim theorems -/

/-- Claim C1 (code bug witness). The spec requires that a record listing a
child id absent from the decoded mapping at attachment time is tolerated:
a diagnostic is recorded, the child is skipped, and assembly proceeds. On
the single-record map whose element lists the absent child id 1, the code
instead aborts the whole reconstruction with `KeyError("1")`, raised by
the `node_map[child_id]` lookup of line 95, which precedes the (dead)
`child_id not in node_map` guard of line 97. -/
theorem c1_dangling_child_raises_key_error :
    build_dom_tree c1Entries "0" = .error (.keyError "1") := rfl

/-- Claim C2 (code bug witness). The spec requires every attached child's
parent back-reference to be set to its parent after assembly. The code
never assigns any node's `parent` attribute: for every successful
reconstruction, every node stored in the final id-to-node mapping still
carries the `parent = None` it was constructed with, even when it sits in
some parent's child list. -/
theorem c2_parent_never_set (entries : List (String × Option Record)) (rootId : String)
    (st : BuildState) (h : build_dom_tree entries rootId = .ok st)
    (id : String) (sn : StoredNode) (hl : assocLookup st.node_map id = some sn) :
    sn.parent = none := by
  rw [build_dom_tree] at h
  cases hb : build_entries entries ⟨[], []⟩ with
  | error e => rw [hb] at h; exact absurd h (by simp)
  | ok st0 =>
      rw [hb] at h
      simp only at h
      cases hr : assocLookup st0.node_map rootId with
      | none => rw [hr] at h; exact absurd h (by simp)
      | some root =>
          rw [hr] at h
          simp only at h
          cases he : isElementVal root.val with
          | false => rw [he] at h; exact absurd h (by simp)
          | true =>
              rw [he] at h
              simp only [if_true] at h
              injection h with h
              subst h
              rcases build_entries_origin entries ⟨[], []⟩ st0 hb id sn hl with
                ⟨sn0, hl0, _, _⟩ | ⟨_, _, _, _, hpn⟩
              · simp [assocLookup] at hl0
              · exact hpn

/-- Witness for C2 at the bottom-up example input: the text node stored
under id "1" is listed among the root's children, yet its parent
back-reference is still unset. -/
theorem c2_parent_never_set_witness :
    (⟨NodeVal.text "hi" true, [], none⟩ : StoredNode).parent = none :=
  c2_parent_never_set c4BottomUp "0" c4BuiltState rfl "1"
    ⟨NodeVal.text "hi" true, [], none⟩ rfl

/-- Claim C3. For every reconstructed tree whose highlight indices are
unique (the spec's well-formedness invariant for producer outputs), the
HandleIndex returned by `_create_selector_map` is exactly the set of
(handle, node) pairs of the element nodes whose handle is set: it equals
the pre-order list of those pairs, every entry's node stores the handle it
is indexed under, every handled node appears under its own handle, and the
number of entries equals the number of nodes with a set handle. -/
theorem c3_selector_map_exact (t : DOMNode) (h : uniqueHandles t) :
    create_selector_map t = (nodesOf t).filterMap pairOf ∧
    (∀ p ∈ create_selector_map t, handleOf p.2 = some p.1) ∧
    (∀ n ∈ nodesOf t, ∀ hi : Int, handleOf n = some hi → (hi, n) ∈ create_selector_map t) ∧
    (create_selector_map t).length =
      ((nodesOf t).filter (fun n => (handleOf n).isSome)).length := by
  have hmain : create_selector_map t = nodePairs t := by
    rw [create_selector_map, process_node_eq_fold]
    rw [foldl_dictInsert_nodup (nodePairs t) [] h (by simp)]
    simp
  have hfm : create_selector_map t = (nodesOf t).filterMap pairOf := by
    rw [hmain, nodePairs_eq_filterMap]
  refine ⟨hfm, ?_, ?_, ?_⟩
  · intro p hp
    rw [hfm] at hp
    obtain ⟨n, _, hpn⟩ := List.mem_filterMap.mp hp
    rw [pairOf] at hpn
    cases hh : handleOf n with
    | none => rw [hh] at hpn; simp at hpn
    | some h0 =>
        rw [hh] at hpn
        rw [Option.map_some'] at hpn
        injection hpn with hpn
        rw [← hpn]
        exact hh
  · intro n hn hi hhi
    rw [hfm]
    exact List.mem_filterMap.mpr ⟨n, hn, by rw [pairOf, hhi]; rfl⟩
  · rw [hfm, length_filterMap_pairOf]

/-- Witness for C3 at the example tree (body, text "hi", div with handle
0): the handles are unique and the HandleIndex is exactly the handled
pairs. -/
theorem c3_selector_map_exact_witness :
    uniqueHandles c4Tree ∧ create_selector_map c4Tree = (nodesOf c4Tree).filterMap pairOf :=
  ⟨by decide, (c3_selector_map_exact c4Tree (by decide)).1⟩

/-- Claim C4, counterexample. On the spec's §8 example with entries in the
declared order (root record "0" first), reconstruction does not return
the claimed tree: the assembler raises `KeyError("1")` when the body
record tries to attach child 1 before either child record was decoded. -/
theorem c4_declared_order_fails :
    build_dom_tree c4TopDown "0" = .error (.keyError "1") := rfl

/-- Claim C4, amended: with the same three records provided in bottom-up
order ("1", "2", "0" — each child before its parent, as the assembler's
producer contract requires), reconstruction succeeds; the tree unfolds to
a "body" element whose two children are the text node "hi" and the "div"
element, and the HandleIndex has exactly one entry, mapping 0 to that div
node. -/
theorem c4_bottom_up_order_builds_tree :
    build_dom_tree c4BottomUp "0" = .ok c4BuiltState ∧
    storeToTree c4BuiltState.node_map 3 "0" = some c4Tree ∧
    create_selector_map c4Tree = [(0, DOMNode.element divFields [])] :=
  ⟨rfl, rfl, rfl⟩

/-- Claim C5. Whenever the declared root id is absent from the decoded
id-to-node mapping, or its record decodes to a non-element node,
reconstruction fails as a whole: `_build_dom_tree` signals an error
(`KeyError` at the line-103 lookup, or the line-106 `ValueError`) and no
tree is returned. -/
theorem c5_bad_root_fails (entries : List (String × Option Record)) (rootId : String)
    (hnd : nodupKeys entries)
    (h : rootId ∉ decodedIds entries ∨
         ∃ rec, (rootId, rec) ∈ entries ∧ decodesToNonElement rec = true) :
    exceptFailed (build_dom_tree entries rootId) = true := by
  rw [build_dom_tree]
  cases hb : build_entries entries ⟨[], []⟩ with
  | error e => rfl
  | ok st0 =>
      simp only
      cases hr : assocLookup st0.node_map rootId with
      | none => rfl
      | some root =>
          simp only
          rcases build_entries_origin entries ⟨[], []⟩ st0 hb rootId root hr with
            ⟨sn0, hl0, _, _⟩ | ⟨rec, cids, hmem, hpr, _⟩
          · simp [assocLookup] at hl0
          · rcases h with h | ⟨rec', hmem', hne⟩
            · exfalso
              apply h
              rw [decodedIds]
              exact List.mem_map.mpr
                ⟨(rootId, rec), List.mem_filter.mpr
                  ⟨hmem, by simp only [decodesToSome, hpr]⟩, rfl⟩
            · have heq : rec' = rec := assoc_mem_unique entries rootId rec' rec hnd hmem' hmem
              subst heq
              simp only [decodesToNonElement, hpr] at hne
              have hne2 : isElementVal root.val = false := by simpa using hne
              rw [hne2]
              rfl

/-- Witness for C5: a well-formed one-record map queried with the absent
root id "9" fails. -/
theorem c5_bad_root_fails_witness :
    nodupKeys c5Entries ∧ exceptFailed (build_dom_tree c5Entries "9") = true :=
  ⟨by decide, c5_bad_root_fails c5Entries "9" (by decide) (Or.inl (by decide))⟩

/-- Claim C6. A falsy (empty/missing) record decodes to "no node" with no
child identifiers, and the assembler skips that id — recording the
"Node {id} is None!" diagnostic together with the raw record — and
continues with the remaining entries instead of failing. -/
theorem c6_falsy_record_skipped :
    parse_node none = .ok (none, []) ∧
    ∀ (id : String) (rest : List (String × Option Record)) (st : BuildState),
      build_entries ((id, none) :: rest) st =
        build_entries rest
          { st with diagnostics := st.diagnostics ++ [Diag.nodeIsNone id none] } :=
  ⟨rfl, fun _ _ _ => rfl⟩

/-- Claim C7. A record whose declared kind is "TEXT_NODE" decodes to a
TextNode carrying exactly the record's `text` and `isVisible` fields, and
contributes no child identifiers. -/
theorem c7_text_record_decodes (r : Record) (t : String) (v : Bool)
    (hty : r.type = some "TEXT_NODE") (htx : r.text = some t) (hvi : r.isVisible = some v) :
    parse_node (some r) = .ok (some (.text t v), []) := by
  simp [parse_node, req, hty, htx, hvi]

/-- Witness for C7 at the example text record. -/
theorem c7_text_record_decodes_witness :
    parse_node (some textRecord) = .ok (some (.text "hi" true), []) :=
  c7_text_record_decodes textRecord "hi" true rfl rfl rfl

/-- Claim C8. A non-empty element record (no TEXT_NODE discriminator) with
tag name and xpath decodes with the documented defaults for every absent
optional field: empty attribute mapping, all four flags false, handle
unset. -/
theorem c8_element_defaults (r : Record) (tn xp : String)
    (hty : ¬ r.type = some "TEXT_NODE")
    (htn : r.tagName = some tn) (hxp : r.xpath = some xp)
    (hattr : r.attributes = none) (hvis : r.isVisible = none)
    (hint : r.isInteractive = none) (htop : r.isTopElement = none)
    (hhi : r.highlightIndex = none) (hsh : r.shadowRoot = none) :
    parse_node (some r) = .ok (some (.element
      { tag_name := tn, xpath := xp, attributes := [], is_visible := false,
        is_interactive := false, is_top_element := false, highlight_index := none,
        shadow_root := false,
        viewport_coordinates := r.viewportCoordinates.map decodeCoordinateSet,
        page_coordinates := r.pageCoordinates.map decodeCoordinateSet,
        viewport_info := r.viewport.map decodeViewportInfo }), r.children.getD []) := by
  simp [parse_node, req, hty, htn, hxp, hattr, hvis, hint, htop, hhi, hsh]

/-- Witness for C8 at a minimal element record. -/
theorem c8_element_defaults_witness :
    parse_node (some c8Rec) = .ok (some (.element
      { tag_name := "span", xpath := "/span", attributes := [], is_visible := false,
        is_interactive := false, is_top_element := false, highlight_index := none,
        shadow_root := false, viewport_coordinates := none, page_coordinates := none,
        viewport_info := none }), []) :=
  c8_element_defaults c8Rec "span" "/span" (by decide) rfl rfl rfl rfl rfl rfl rfl rfl

/-- Claim C9. An element record with a full `viewportCoordinates`
sub-record decodes to an element whose viewport geometry reproduces the
input's four corners, center, width and height exactly, while the
document-relative geometry is decoded independently from the (arbitrary)
`pageCoordinates` field alone. -/
theorem c9_geometry_round_trip (r : Record) (tn xp : String) (vc : RawCoordinateSet)
    (hty : ¬ r.type = some "TEXT_NODE")
    (htn : r.tagName = some tn) (hxp : r.xpath = some xp)
    (hvc : r.viewportCoordinates = some vc) :
    parse_node (some r) = .ok (some (.element
      { tag_name := tn, xpath := xp, attributes := r.attributes.getD [],
        is_visible := r.isVisible.getD false,
        is_interactive := r.isInteractive.getD false,
        is_top_element := r.isTopElement.getD false,
        highlight_index := r.highlightIndex,
        shadow_root := r.shadowRoot.getD false,
        viewport_coordinates := some (decodeCoordinateSet vc),
        page_coordinates := r.pageCoordinates.map decodeCoordinateSet,
        viewport_info := r.viewport.map decodeViewportInfo }), r.children.getD []) ∧
    (decodeCoordinateSet vc).top_left = vc.topLeft ∧
    (decodeCoordinateSet vc).top_right = vc.topRight ∧
    (decodeCoordinateSet vc).bottom_left = vc.bottomLeft ∧
    (decodeCoordinateSet vc).bottom_right = vc.bottomRight ∧
    (decodeCoordinateSet vc).center = vc.center ∧
    (decodeCoordinateSet vc).width = vc.width ∧
    (decodeCoordinateSet vc).height = vc.height := by
  refine ⟨?_, rfl, rfl, rfl, rfl, rfl, rfl, rfl⟩
  simp [parse_node, req, hty, htn, hxp, hvc]

/-- Witness for C9 at a concrete geometry record. -/
theorem c9_geometry_round_trip_witness :
    (decodeCoordinateSet c9Vc).top_left = c9Vc.topLeft :=
  (c9_geometry_round_trip c9Rec "div" "/div" c9Vc (by decide) rfl rfl rfl).2.1

/-- Claim C10. The Record Decoder is partial over non-empty records: a
text-kind record lacking `text` or `isVisible`, and an element record
lacking `tagName` or `xpath`, make decoding raise the corresponding
`KeyError` rather than return a node or the "no node" result. -/
theorem c10_missing_required_field_raises :
    parse_node (some { type := some "TEXT_NODE" }) = .error (.keyError "text") ∧
    parse_node (some { type := some "TEXT_NODE", text := some "hi" }) =
      .error (.keyError "isVisible") ∧
    parse_node (some ({ } : Record)) = .error (.keyError "tagName") ∧
    parse_node (some { tagName := some "div" }) = .error (.keyError "xpath") :=
  ⟨rfl, rfl, rfl, rfl⟩

end BrowserUse
